import Mathlib

/-!
Shallow embedding of `ep_image_upload/src/index.js` (the Etherpad image-upload
plugin's server-side hooks) and proofs about its observable behaviour.

The embedding covers:
* the `clientVars` hook (src/index.js lines 33-60), over a small model of
  JavaScript runtime values;
* the upload endpoint installed by `expressConfigure`
  (src/index.js lines 80-167), modelled as a state machine driven by the
  events busboy and the per-file streams can emit: `file`, the file stream's
  `limit` and `error` events, busboy-level `error`, and `finish`;
* the synchronous prologue of the POST handler (lines 82-103), which reads
  `settings.ep_image_upload.storage.baseFolder` while constructing the
  `StreamUpload` instance before the `storageConfig` guard runs.

Node library functions used by the source (`path.extname`, `path.join`,
WHATWG `new URL(input, base)`) are embedded as executable functions over
character lists, faithful on the argument shapes the plugin feeds them
(relative slash-separated keys, absolute http base URLs).
-/

namespace EpImageUpload

/-- JavaScript runtime values, sufficient for the plugin's settings objects.
Objects are insertion-ordered association lists, matching the key order that
`Object.keys` exposes. -/
inductive Value : Type where
  | undef : Value
  | null : Value
  | bool : Bool → Value
  | num : Int → Value
  | str : String → Value
  | obj : List (String × Value) → Value

/-- Property read `o[k]` on an association list: the first binding wins
(JavaScript objects cannot carry duplicate keys). -/
def lookupKey : List (String × Value) → String → Option Value
  | [], _ => none
  | p :: ps, k => if p.1 == k then some p.2 else lookupKey ps k

/-- Property write `o[k] = v` on an association list: overwrite in place if
the key exists (keeping its position, as JavaScript assignment does — object
keys are unique, so replacing the first binding is exact), else append. -/
def objSet : List (String × Value) → String → Value → List (String × Value)
  | [], k, v => [(k, v)]
  | p :: ps, k, v => if p.1 == k then (k, v) :: ps else p :: objSet ps k v

/-- JavaScript truthiness of a value. -/
def truthy : Value → Bool
  | Value.undef => false
  | Value.null => false
  | Value.bool b => b
  | Value.num n => n != 0
  | Value.str s => s != ""
  | Value.obj _ => true

/-- Property read on an arbitrary value: reading a property of a non-object
yields `undefined` (reads on `undefined`/`null` would throw, but the source
only reads `.type` after a truthiness check). -/
def jsGet (v : Value) (k : String) : Value :=
  match v with
  | Value.obj fields => (lookupKey fields k).getD Value.undef
  | _ => Value.undef

/-- The strict comparison `x !== 'base64'` from src/index.js line 46: true
for every non-string value and for any string other than `"base64"`. -/
def typeNotBase64 : Value → Bool
  | Value.str t => t != "base64"
  | _ => true

/-- The `keys.forEach` copy loop of src/index.js lines 40-45: every key of
`settings.ep_image_upload` except `storage` is assigned onto the
`pluginSettings` accumulator. -/
def copyKeys (ep : List (String × Value)) (ps : List (String × Value)) :
    List (String × Value) :=
  ep.foldl (fun acc p => if p.1 == "storage" then acc else objSet acc p.1 p.2) ps

/-- Lines 46-48: when `storage` is truthy and its `type` is not `'base64'`,
`pluginSettings.storageType` is overwritten with `storage.type`. -/
def applyStorageType : Option Value → List (String × Value) → List (String × Value)
  | some sv, ps =>
    if truthy sv && typeNotBase64 (jsGet sv "type") then
      objSet ps "storageType" (jsGet sv "type")
    else ps
  | none, ps => ps

/-- The `clientVars` hook, src/index.js lines 33-60. `mimeDb` stands for the
`mime-db` table required on line 15. The accumulator starts as the object
literal of lines 34-36; the `if (!pluginSettings)` branch on line 50 is dead
(the accumulator is always a truthy object) and is omitted. The hook returns
the object stored under the `ep_image_upload` key of the callback argument;
we return that object. -/
def clientVars (mimeDb : Value) (ep : List (String × Value)) :
    List (String × Value) :=
  objSet
    (applyStorageType (lookupKey ep "storage")
      (copyKeys ep [("storageType", Value.str "base64")]))
    "mimeTypes" mimeDb

/-- The dependence of `clientVars` on the `storage` entry, factored out: only
its truthiness and its `type` property are ever read. -/
def storageSigOf (storageV : Option Value) : Option (Bool × Value) :=
  storageV.map (fun sv => (truthy sv, jsGet sv "type"))

/-- Signature of a settings object's `storage` entry. -/
def storageSig (ep : List (String × Value)) : Option (Bool × Value) :=
  storageSigOf (lookupKey ep "storage")

/-- Pointwise relation on settings lists: same keys in the same order, and
equal values everywhere except possibly at the `storage` key. -/
def agreeOffStorage (p q : String × Value) : Prop :=
  p.1 = q.1 ∧ (p.1 ≠ "storage" → p.2 = q.2)

/-- Character-list splitting on a separator character, e.g. splitting a path
on `/`. Mirrors `String.splitOn` for one-character separators. -/
def splitOnChar (c : Char) : List Char → List (List Char)
  | [] => [[]]
  | x :: xs =>
    let r := splitOnChar c xs
    if x == c then [] :: r
    else
      match r with
      | [] => [[x]]
      | y :: ys => (x :: y) :: ys

/-- Joining segments with `/`, the inverse of `splitOnChar '/'`. -/
def joinSegs : List (List Char) → List Char
  | [] => []
  | [s] => s
  | s :: rest => s ++ '/' :: joinSegs rest

/-- Model of Node's `path.extname` on the filenames the plugin receives:
the suffix of the basename from its last dot, empty when the basename has no
dot or only a leading dot. -/
def extname (p : String) : String :=
  let base := (splitOnChar '/' p.toList).getLastD []
  match base with
  | ['.', '.'] => ""
  | _ =>
    match splitOnChar '.' base with
    | [] => ""
    | [_] => ""
    | first :: rest =>
      if rest.length == 1 && first.isEmpty then ""
      else String.mk ('.' :: rest.getLastD [])

/-- Model of Node's `path.join` on the already-clean relative segments the
plugin joins (a pad id, a generated name, a base folder). -/
def pathJoin (a b : String) : String := a ++ "/" ++ b

/-- Splitting `scheme://rest` at the first `://`. -/
def splitScheme : List Char → Option (List Char × List Char)
  | [] => none
  | ':' :: '/' :: '/' :: rest => some ([], rest)
  | x :: xs => (splitScheme xs).map (fun p => (x :: p.1, p.2))

/-- Model of WHATWG `new URL(rel, base)` (src/index.js line 133) for an
absolute `http(s)://host/path` base and a relative slash-separated `rel`:
the last segment of the base path is dropped and `rel`'s segments are
appended — so a base that does not end in `/` loses its final path segment. -/
def urlResolve (rel base : String) : String :=
  match splitScheme base.toList with
  | none => rel
  | some (scheme, rest) =>
    match splitOnChar '/' rest with
    | [] => rel
    | host :: pathSegs =>
      String.mk (scheme ++ (':' :: '/' :: '/' :: host) ++
        '/' :: joinSegs (pathSegs.dropLast ++ splitOnChar '/' rel.toList))

/-- Modelled from the spec: the local-storage descriptor the specification
prescribes — `baseURL` normalized to end with `/`, concatenated with the
relative key `padId/<id><ext>` (spec section 4.2 and testable property 5).
Used only to compare the source's computation against the spec's formula. -/
def specLocalUrl (baseURL padId id ext : String) : String :=
  let b := match baseURL.toList.getLast? with
    | some '/' => baseURL
    | _ => baseURL ++ "/"
  b ++ padId ++ "/" ++ id ++ ext

/-- A JavaScript `Error` as the upload path builds them: a message plus the
optional `type` and `statusCode` fields attached on lines 138-139. -/
structure Err where
  message : String
  type : Option String := none
  statusCode : Option Nat := none
deriving DecidableEq, Repr

/-- The error constructed in the file stream's `limit` handler
(src/index.js lines 137-139). -/
def fileSizeError : Err :=
  { message := "File is too large", type := some "fileSize", statusCode := some 403 }

/-- Body of an HTTP response written by the handler: either the stored-object
descriptor / access URL passed to `res.json` on line 160, or an error record
passed on line 162 (or on the dead line 116). -/
inductive RespBody where
  | descriptor : String → RespBody
  | errBody : Err → RespBody
deriving DecidableEq, Repr

/-- One HTTP response written through `res.status(..).json(..)`. -/
structure Response where
  status : Nat
  body : RespBody
deriving DecidableEq, Repr

/-- Externally observable side effects of the handler other than HTTP
responses: `console.error` logging, the `imageUpload.upload` call with the
computed destination key, `imageUpload.deletePartials()`, `req.unpipe`,
`drainStream(req)` and `busboy.removeAllListeners()`. -/
inductive Action where
  | logError : Err → Action
  | uploadCall : String → String → Action
  | deletePartials : Action
  | unpipe : Action
  | drain : Action
  | removeAllListeners : Action
deriving DecidableEq, Repr

/-- Result the `imageUpload.upload(...)` promise eventually settles to:
the data the backend reports, or a rejection. -/
inductive UploadOutcome where
  | ok : String → UploadOutcome
  | err : Err → UploadOutcome
deriving DecidableEq, Repr

/-- The `settings.ep_image_upload.storage` object, with the fields the upload
path reads. -/
structure StorageSettings where
  type : String
  baseFolder : String
  baseURL : String
deriving DecidableEq, Repr

/-- Per-request constants of one upload session: the `:padId` route
parameter, the `uuid.v4()` value drawn once on line 123, and the storage
settings in force. -/
structure SessionConfig where
  padId : String
  reqId : String
  storage : Option StorageSettings
deriving DecidableEq, Repr

/-- Line 128's condition: `settings.ep_image_upload.storage &&
settings.ep_image_upload.storage.type === 'local'`. -/
def storageIsLocal (cfg : SessionConfig) : Bool :=
  match cfg.storage with
  | some s => s.type == "local"
  | none => false

/-- Events delivered to the handler's callbacks, in arrival order: a `file`
event from busboy (carrying the declared filename and mimetype, and the
outcome its `upload` promise will settle to), the file stream's `limit` and
`error` events, a busboy-level `error`, and busboy's `finish`. -/
inductive Event where
  | filePart : String → String → UploadOutcome → Event
  | fileLimit : Event
  | fileError : Err → Event
  | busboyError : Err → Event
  | finish : Event
deriving DecidableEq, Repr

/-- Mutable state of one request's handler closure: the `isDone` flag, the
`uploadResult` promise slot, the `accessPath` string (initially `''`, hence
falsy), plus the observable responses and actions in emission order.
`crashed` records a TypeError thrown inside a callback. -/
structure SessionState where
  isDone : Bool := false
  crashed : Bool := false
  uploadResult : Option UploadOutcome := none
  accessPath : String := ""
  responses : List Response := []
  actions : List Action := []
deriving DecidableEq, Repr

/-- Fresh closure state at the start of a request. -/
def initialState : SessionState := {}

/-- The `done` callback, src/index.js lines 106-120, modelled line by line.
With a truthy `error` it logs and returns at line 110, before the `isDone`
guard, the response write, `req.unpipe`, `drainStream` and
`removeAllListeners` — so those lines never run on the error path. Called
with no argument (which never happens: it is installed only as busboy's
`error` listener) it would pass the guard and then throw a TypeError reading
`error.statusCode` of `undefined`, modelled by `crashed`. -/
def done (error : Option Err) (st : SessionState) : SessionState :=
  match error with
  | some e => { st with actions := st.actions ++ [Action.logError e] }
  | none =>
    if st.isDone then st
    else { st with isDone := true, crashed := true }

/-- The destination key built on line 126:
`path.join(padId, newFileName + path.extname(filename))`, with
`newFileName` the per-request `uuid.v4()`. -/
def savedKey (cfg : SessionConfig) (filename : String) : String :=
  pathJoin cfg.padId (cfg.reqId ++ extname filename)

/-- The `busboy.on('file', ...)` handler, lines 125-149. In the local branch
(lines 128-135) a normalized copy of `baseURL` is computed on lines 129-132
but never used: line 133 resolves the key against the raw configured
`storage.baseURL`, and the saved filename gains the `baseFolder` prefix.
Either way `imageUpload.upload` is invoked and its promise is stored in
`uploadResult`. -/
def stepFile (cfg : SessionConfig) (filename mimetype : String)
    (result : UploadOutcome) (st : SessionState) : SessionState :=
  let key := savedKey cfg filename
  match cfg.storage with
  | some s =>
    if s.type == "local" then
      { st with
        accessPath := urlResolve key s.baseURL
        uploadResult := some result
        actions := st.actions ++ [Action.uploadCall (pathJoin s.baseFolder key) mimetype] }
    else
      { st with
        uploadResult := some result
        actions := st.actions ++ [Action.uploadCall key mimetype] }
  | none =>
    { st with
      uploadResult := some result
      actions := st.actions ++ [Action.uploadCall key mimetype] }

/-- The file stream's `limit` handler, lines 136-142: build the 403
`fileSize` error, `busboy.emit('error', error)` — which synchronously runs
`done` — and only then call `imageUpload.deletePartials()`. -/
def stepLimit (st : SessionState) : SessionState :=
  let st1 := done (some fileSizeError) st
  { st1 with actions := st1.actions ++ [Action.deletePartials] }

/-- The `busboy.on('finish', ...)` handler, lines 152-164: nothing at all is
written unless `uploadResult` is set; otherwise the resolved promise yields a
201 with the descriptor (replaced by `accessPath` when that is truthy,
lines 156-158), and a rejected promise yields a 500 with the error. -/
def stepFinish (st : SessionState) : SessionState :=
  match st.uploadResult with
  | none => st
  | some (UploadOutcome.ok data) =>
    { st with responses := st.responses ++
        [{ status := 201,
           body := RespBody.descriptor (if st.accessPath != "" then st.accessPath else data) }] }
  | some (UploadOutcome.err e) =>
    { st with responses := st.responses ++ [{ status := 500, body := RespBody.errBody e }] }

/-- One event step of the session. The file stream's `error` handler
(lines 143-145) and busboy-level errors both re-emit into busboy's sole
`error` listener, `done`. -/
def step (cfg : SessionConfig) (st : SessionState) : Event → SessionState
  | Event.filePart fn mt r => stepFile cfg fn mt r st
  | Event.fileLimit => stepLimit st
  | Event.fileError e => done (some e) st
  | Event.busboyError e => done (some e) st
  | Event.finish => stepFinish st

/-- Run a whole session over its event trace. -/
def run (cfg : SessionConfig) (events : List Event) : SessionState :=
  events.foldl (step cfg) initialState

/-- Recognizer for busboy's `finish` event. -/
def isFinish : Event → Bool
  | Event.finish => true
  | _ => false

/-- Recognizer for busboy `file` events. -/
def isFilePart : Event → Bool
  | Event.filePart _ _ _ => true
  | _ => false

/-- The recognized `settings.ep_image_upload` options (spec section 6). -/
structure EpUploadSettings where
  fileTypes : Option (List String) := none
  maxFileSize : Option Nat := none
  storage : Option StorageSettings := none
deriving Repr

/-- Message of the TypeError thrown on line 87 when
`settings.ep_image_upload.storage` is `undefined`. -/
def typeErrorMsg : String := "TypeError: cannot read baseFolder of undefined"

/-- The property read `settings.ep_image_upload.storage.baseFolder`
performed on line 87 while building the `StreamUpload` options object:
throws when `storage` is `undefined`. -/
def readBaseFolder (s : EpUploadSettings) : Except String String :=
  match s.storage with
  | none => Except.error typeErrorMsg
  | some st => Except.ok st.baseFolder

/-- The synchronous prologue of the POST handler, lines 84-91: the
`StreamUpload` construction (which reads `storage.baseFolder`) runs first;
only afterwards is `storageConfig` bound and its truthiness tested. The
result records whether the guard passed. -/
def postHandlerInit (s : EpUploadSettings) : Except String Bool :=
  (readBaseFolder s).bind (fun _ => Except.ok s.storage.isSome)

/-- The whole handler on one request: if the prologue throws, the exception
propagates and the handler writes nothing; if the guard fails, the handler
body is skipped and nothing is written; otherwise the session runs over the
request's event trace and its responses are the handler's responses. -/
def handlerRun (s : EpUploadSettings) (padId reqId : String)
    (events : List Event) : Except String (List Response) :=
  match postHandlerInit s with
  | Except.error msg => Except.error msg
  | Except.ok false => Except.ok []
  | Except.ok true =>
    Except.ok (run { padId := padId, reqId := reqId, storage := s.storage } events).responses

/-- The local-storage configuration of the spec's concrete scenarios
(testable properties 6-8): base folder `/tmp/up`, base URL `http://x/files`
(no trailing slash), pad `pad1`; `u` stands for the generated uuid. -/
def cfgLocal : SessionConfig :=
  { padId := "pad1", reqId := "u",
    storage := some { type := "local", baseFolder := "/tmp/up", baseURL := "http://x/files" } }

/-- An object-storage (non-local) configuration for the same pad. -/
def cfgS3 : SessionConfig :=
  { padId := "pad1", reqId := "u",
    storage := some { type := "s3", baseFolder := "uploads", baseURL := "" } }

/-- A mimetype table standing for the `mime-db` module. -/
def mimeDbV : Value := Value.obj [("image/png", Value.obj [])]

/-- A settings object whose `storage` entry holds a credential. -/
def epSettingsA : List (String × Value) :=
  [("fileTypes", Value.str "png"),
   ("storage", Value.obj [("type", Value.str "s3"), ("secretAccessKey", Value.str "SECRET-A")])]

/-- The same settings object with a different credential under `storage`. -/
def epSettingsB : List (String × Value) :=
  [("fileTypes", Value.str "png"),
   ("storage", Value.obj [("type", Value.str "s3"), ("secretAccessKey", Value.str "SECRET-B")])]

theorem lookupKey_cons (p : String × Value) (ps : List (String × Value)) (k : String) :
    lookupKey (p :: ps) k = if p.1 = k then some p.2 else lookupKey ps k := by
  simp [lookupKey]

theorem lookupKey_objSet (o : List (String × Value)) (k : String) (v : Value)
    (k' : String) :
    lookupKey (objSet o k v) k' = if k = k' then some v else lookupKey o k' := by
  induction o with
  | nil =>
    show lookupKey [(k, v)] k' = _
    rw [lookupKey_cons]
  | cons p ps ih =>
    by_cases h : p.1 = k
    · show lookupKey (if p.1 == k then (k, v) :: ps else p :: objSet ps k v) k' = _
      rw [if_pos (by simpa using h), lookupKey_cons, lookupKey_cons]
      subst h
      by_cases h' : p.1 = k' <;> simp [h']
    · show lookupKey (if p.1 == k then (k, v) :: ps else p :: objSet ps k v) k' = _
      rw [if_neg (by simpa using h), lookupKey_cons, ih, lookupKey_cons]
      rcases eq_or_ne p.1 k' with hp | hp
      · have hk : ¬ k = k' := fun hkk => h (hp.trans hkk.symm)
        simp [hp, hk]
      · simp [hp]

theorem keys_objSet (o : List (String × Value)) (k : String) (v : Value) :
    (objSet o k v).map Prod.fst = o.map Prod.fst ∨
      (objSet o k v).map Prod.fst = o.map Prod.fst ++ [k] := by
  induction o with
  | nil => right; rfl
  | cons p ps ih =>
    simp only [objSet]
    by_cases h : p.1 = k
    · rw [if_pos (by simpa using h)]
      left
      simp [h]
    · rw [if_neg (by simpa using h)]
      rcases ih with ih | ih
      · left; simp [ih]
      · right; simp [ih]

theorem mem_keys_objSet_of_mem (o : List (String × Value)) (k : String) (v : Value)
    (k' : String) (h : k' ∈ o.map Prod.fst) : k' ∈ (objSet o k v).map Prod.fst := by
  rcases keys_objSet o k v with hk | hk <;> rw [hk] <;> simp [h]

theorem self_mem_keys_objSet (o : List (String × Value)) (k : String) (v : Value) :
    k ∈ (objSet o k v).map Prod.fst := by
  induction o with
  | nil => simp [objSet]
  | cons p ps ih =>
    by_cases h : p.1 = k
    · show k ∈ ((if p.1 == k then (k, v) :: ps else p :: objSet ps k v)).map Prod.fst
      rw [if_pos (by simpa using h)]
      simp
    · show k ∈ ((if p.1 == k then (k, v) :: ps else p :: objSet ps k v)).map Prod.fst
      rw [if_neg (by simpa using h)]
      simpa using Or.inr ih

theorem lookupKey_copyKeys_storage (ep : List (String × Value)) :
    ∀ ps : List (String × Value),
      lookupKey (copyKeys ep ps) "storage" = lookupKey ps "storage" := by
  induction ep with
  | nil => intro ps; rfl
  | cons p ep ih =>
    intro ps
    unfold copyKeys at ih ⊢
    rw [List.foldl_cons]
    by_cases h : p.1 == "storage"
    · rw [if_pos h]
      exact ih ps
    · rw [if_neg h, ih, lookupKey_objSet, if_neg]
      simpa using h

theorem mem_keys_copyKeys_of_mem (ep : List (String × Value)) :
    ∀ ps : List (String × Value), ∀ k : String,
      k ∈ ps.map Prod.fst → k ∈ (copyKeys ep ps).map Prod.fst := by
  induction ep with
  | nil => intro ps k h; exact h
  | cons p ep ih =>
    intro ps k h
    unfold copyKeys at ih ⊢
    rw [List.foldl_cons]
    by_cases hp : p.1 == "storage"
    · rw [if_pos hp]
      exact ih ps k h
    · rw [if_neg hp]
      exact ih _ k (mem_keys_objSet_of_mem ps p.1 p.2 k h)

theorem mem_keys_copyKeys (ep : List (String × Value)) :
    ∀ ps : List (String × Value), ∀ k : String,
      k ∈ ep.map Prod.fst → k ≠ "storage" → k ∈ (copyKeys ep ps).map Prod.fst := by
  induction ep with
  | nil => intro ps k h; simp at h
  | cons p ep ih =>
    intro ps k h hk
    unfold copyKeys at ih ⊢
    rw [List.foldl_cons]
    simp only [List.map_cons, List.mem_cons] at h
    rcases h with h | h
    · subst h
      rw [if_neg (by simpa using hk)]
      exact mem_keys_copyKeys_of_mem ep _ p.1 (self_mem_keys_objSet ps p.1 p.2)
    · by_cases hp : p.1 == "storage"
      · rw [if_pos hp]
        exact ih ps k h hk
      · rw [if_neg hp]
        exact ih _ k h hk

theorem copyKeys_congr (ep₁ ep₂ : List (String × Value))
    (hagree : List.Forall₂ agreeOffStorage ep₁ ep₂) :
    ∀ ps : List (String × Value), copyKeys ep₁ ps = copyKeys ep₂ ps := by
  induction hagree with
  | nil => intro ps; rfl
  | cons hpq htail ih =>
    intro ps
    rename_i p q ea eb
    unfold copyKeys at ih ⊢
    rw [List.foldl_cons, List.foldl_cons]
    obtain ⟨hkey, hval⟩ := hpq
    by_cases hp : p.1 == "storage"
    · rw [if_pos hp, if_pos (by rw [← hkey]; exact hp)]
      exact ih ps
    · have hne : p.1 ≠ "storage" := by simpa using hp
      rw [if_neg hp, if_neg (by rw [← hkey]; exact hp), ← hkey, ← hval hne]
      exact ih _

theorem applyStorageType_congr (s₁ s₂ : Option Value)
    (h : storageSigOf s₁ = storageSigOf s₂) (ps : List (String × Value)) :
    applyStorageType s₁ ps = applyStorageType s₂ ps := by
  cases s₁ with
  | none =>
    cases s₂ with
    | none => rfl
    | some sv => simp [storageSigOf] at h
  | some sv₁ =>
    cases s₂ with
    | none => simp [storageSigOf] at h
    | some sv₂ =>
      simp only [storageSigOf, Option.map_some', Option.some.injEq, Prod.mk.injEq] at h
      simp only [applyStorageType, h.1, h.2]

theorem lookupKey_applyStorageType_ne (sv : Option Value) (ps : List (String × Value))
    (k : String) (hk : k ≠ "storageType") :
    lookupKey (applyStorageType sv ps) k = lookupKey ps k := by
  cases sv with
  | none => rfl
  | some v =>
    simp only [applyStorageType]
    by_cases h : truthy v && typeNotBase64 (jsGet v "type")
    · rw [if_pos h, lookupKey_objSet, if_neg (fun hc => hk hc.symm)]
    · rw [if_neg h]

theorem mem_keys_applyStorageType_of_mem (sv : Option Value)
    (ps : List (String × Value)) (k : String) (h : k ∈ ps.map Prod.fst) :
    k ∈ (applyStorageType sv ps).map Prod.fst := by
  cases sv with
  | none => exact h
  | some v =>
    simp only [applyStorageType]
    by_cases hc : truthy v && typeNotBase64 (jsGet v "type")
    · rw [if_pos hc]
      exact mem_keys_objSet_of_mem ps _ _ k h
    · rw [if_neg hc]
      exact h

theorem done_responses (e : Option Err) (st : SessionState) :
    (done e st).responses = st.responses := by
  cases e with
  | some err => rfl
  | none => by_cases h : st.isDone <;> simp [done, h]

theorem done_uploadResult (e : Option Err) (st : SessionState) :
    (done e st).uploadResult = st.uploadResult := by
  cases e with
  | some err => rfl
  | none => by_cases h : st.isDone <;> simp [done, h]

theorem stepFile_responses (cfg : SessionConfig) (fn mt : String) (r : UploadOutcome)
    (st : SessionState) : (stepFile cfg fn mt r st).responses = st.responses := by
  cases hs : cfg.storage with
  | none => simp [stepFile, hs]
  | some s =>
    simp only [stepFile, hs]
    split <;> rfl

theorem stepLimit_responses (st : SessionState) :
    (stepLimit st).responses = st.responses := rfl

theorem stepLimit_uploadResult (st : SessionState) :
    (stepLimit st).uploadResult = st.uploadResult := rfl

theorem stepLimit_actions (st : SessionState) :
    (stepLimit st).actions =
      st.actions ++ [Action.logError fileSizeError, Action.deletePartials] := by
  simp [stepLimit, done]

theorem stepFinish_responses_le (st : SessionState) :
    (stepFinish st).responses.length ≤ st.responses.length + 1 := by
  unfold stepFinish
  split <;> simp

theorem stepFinish_actions (st : SessionState) :
    (stepFinish st).actions = st.actions := by
  unfold stepFinish
  split <;> rfl

theorem step_responses_le (cfg : SessionConfig) (st : SessionState) (e : Event) :
    (step cfg st e).responses.length ≤
      st.responses.length + (if isFinish e then 1 else 0) := by
  cases e with
  | filePart fn mt r => simp [step, stepFile_responses, isFinish]
  | fileLimit => simp [step, stepLimit_responses, isFinish]
  | fileError e => simp [step, done_responses, isFinish]
  | busboyError e => simp [step, done_responses, isFinish]
  | finish => simpa [step, isFinish] using stepFinish_responses_le st

theorem foldl_responses_le (cfg : SessionConfig) (events : List Event) :
    ∀ st : SessionState,
      (events.foldl (step cfg) st).responses.length ≤
        st.responses.length + events.countP isFinish := by
  induction events with
  | nil => intro st; simp
  | cons e es ih =>
    intro st
    have h1 := step_responses_le cfg st e
    have h2 := ih (step cfg st e)
    rw [List.foldl_cons, List.countP_cons]
    by_cases hf : isFinish e
    · simp [hf] at h1 ⊢
      omega
    · simp [hf] at h1 ⊢
      omega

theorem step_actions_shape (cfg : SessionConfig) (st : SessionState) (e : Event) :
    ∃ new : List Action, (step cfg st e).actions = st.actions ++ new ∧
      Action.unpipe ∉ new ∧ Action.drain ∉ new := by
  cases e with
  | filePart fn mt r =>
    cases hs : cfg.storage with
    | none =>
      exact ⟨[Action.uploadCall (savedKey cfg fn) mt], by simp [step, stepFile, hs],
        by simp, by simp⟩
    | some s =>
      by_cases hl : s.type == "local"
      · exact ⟨[Action.uploadCall (pathJoin s.baseFolder (savedKey cfg fn)) mt],
          by simp [step, stepFile, hs, hl], by simp, by simp⟩
      · exact ⟨[Action.uploadCall (savedKey cfg fn) mt],
          by simp [step, stepFile, hs, hl], by simp, by simp⟩
  | fileLimit =>
    exact ⟨[Action.logError fileSizeError, Action.deletePartials],
      stepLimit_actions st, by simp, by simp⟩
  | fileError e => exact ⟨[Action.logError e], rfl, by simp, by simp⟩
  | busboyError e => exact ⟨[Action.logError e], rfl, by simp, by simp⟩
  | finish => exact ⟨[], by simpa using stepFinish_actions st, by simp, by simp⟩

theorem foldl_no_unpipe_drain (cfg : SessionConfig) (events : List Event) :
    ∀ st : SessionState,
      Action.unpipe ∉ st.actions → Action.drain ∉ st.actions →
      Action.unpipe ∉ (events.foldl (step cfg) st).actions ∧
        Action.drain ∉ (events.foldl (step cfg) st).actions := by
  induction events with
  | nil => intro st h1 h2; exact ⟨h1, h2⟩
  | cons e es ih =>
    intro st h1 h2
    obtain ⟨new, hnew, hn1, hn2⟩ := step_actions_shape cfg st e
    rw [List.foldl_cons]
    apply ih
    · rw [hnew]
      intro hmem
      rcases List.mem_append.1 hmem with hm | hm
      · exact h1 hm
      · exact hn1 hm
    · rw [hnew]
      intro hmem
      rcases List.mem_append.1 hmem with hm | hm
      · exact h2 hm
      · exact hn2 hm

theorem step_uploadResult_of_not_file (cfg : SessionConfig) (st : SessionState)
    (e : Event) (hf : isFilePart e = false) :
    (step cfg st e).uploadResult = st.uploadResult := by
  cases e with
  | filePart fn mt r => simp [isFilePart] at hf
  | fileLimit => exact stepLimit_uploadResult st
  | fileError e => exact done_uploadResult _ st
  | busboyError e => exact done_uploadResult _ st
  | finish =>
    show (stepFinish st).uploadResult = st.uploadResult
    unfold stepFinish
    split <;> rfl

theorem step_responses_of_not_file (cfg : SessionConfig) (st : SessionState)
    (e : Event) (hf : isFilePart e = false) (hu : st.uploadResult = none) :
    (step cfg st e).responses = st.responses := by
  cases e with
  | filePart fn mt r => simp [isFilePart] at hf
  | fileLimit => exact stepLimit_responses st
  | fileError e => exact done_responses _ st
  | busboyError e => exact done_responses _ st
  | finish =>
    show (stepFinish st).responses = st.responses
    unfold stepFinish
    rw [hu]

theorem foldl_no_file_responses (cfg : SessionConfig) (events : List Event) :
    ∀ st : SessionState, (∀ e ∈ events, isFilePart e = false) →
      st.uploadResult = none →
      (events.foldl (step cfg) st).responses = st.responses := by
  induction events with
  | nil => intro st _ _; rfl
  | cons e es ih =>
    intro st hall hu
    have he : isFilePart e = false := hall e (List.mem_cons_self e es)
    rw [List.foldl_cons]
    rw [ih (step cfg st e) (fun x hx => hall x (List.mem_cons_of_mem e hx))
      (by rw [step_uploadResult_of_not_file cfg st e he]; exact hu)]
    exact step_responses_of_not_file cfg st e he hu

/-- Claim C1: for every request at most one HTTP response is written, even if
multiple error events (a stream size-limit violation and parser-level errors)
fire for the same session — and error callbacks and file-part events never
write a response at all, so once the session has produced its single terminal
response every later error callback or file part leaves the response list
unchanged. The hypothesis records that busboy emits `finish` at most once per
request. -/
theorem upload_writes_at_most_one_response (cfg : SessionConfig)
    (events : List Event) (hfin : events.countP isFinish ≤ 1) :
    (run cfg events).responses.length ≤ 1 ∧
    (∀ st e, (step cfg st (Event.fileError e)).responses = st.responses) ∧
    (∀ st e, (step cfg st (Event.busboyError e)).responses = st.responses) ∧
    (∀ st, (step cfg st Event.fileLimit).responses = st.responses) ∧
    (∀ st fn mt r, (step cfg st (Event.filePart fn mt r)).responses = st.responses) := by
  refine ⟨?_, ?_, ?_, ?_, ?_⟩
  · have h := foldl_responses_le cfg events initialState
    simp only [initialState] at h
    unfold run initialState
    calc (events.foldl (step cfg) {}).responses.length
        ≤ (({} : SessionState)).responses.length + events.countP isFinish := h
      _ ≤ 1 := by simpa using hfin
  · intro st e; exact done_responses _ st
  · intro st e; exact done_responses _ st
  · intro st; exact stepLimit_responses st
  · intro st fn mt r; exact stepFile_responses cfg fn mt r st

/-- Witness for C1: a session in which a size-limit violation, a file-stream
error and a busboy-level error all fire still yields at most one response. -/
theorem upload_writes_at_most_one_response_witness :
    (run cfgLocal
      [Event.filePart "photo.png" "image/png" (UploadOutcome.ok "stored"),
       Event.fileLimit, Event.fileError fileSizeError,
       Event.busboyError fileSizeError, Event.finish]).responses.length ≤ 1 :=
  (upload_writes_at_most_one_response cfgLocal
    [Event.filePart "photo.png" "image/png" (UploadOutcome.ok "stored"),
     Event.fileLimit, Event.fileError fileSizeError,
     Event.busboyError fileSizeError, Event.finish] (by decide)).1

/-- Claim C2 (what the code actually does at the claimed scenario): when the
file part exceeds the size limit, the `limit` handler's 403 `fileSize` error
is only logged — `done` returns before its response-writing line — and no 403
response is ever written: the `finish` handler answers 201 (when the upload
promise resolves) or 500 (when it rejects). `deletePartials` is invoked, so
the no-leftover half of the claim does hold. -/
theorem oversize_upload_logs_but_sends_no_403 :
    (run cfgLocal [Event.filePart "photo.png" "image/png" (UploadOutcome.ok "stored"),
        Event.fileLimit, Event.finish]).responses
      = [{ status := 201, body := RespBody.descriptor "http://x/pad1/u.png" }] ∧
    Action.logError fileSizeError ∈
      (run cfgLocal [Event.filePart "photo.png" "image/png" (UploadOutcome.ok "stored"),
        Event.fileLimit, Event.finish]).actions ∧
    Action.deletePartials ∈
      (run cfgLocal [Event.filePart "photo.png" "image/png" (UploadOutcome.ok "stored"),
        Event.fileLimit, Event.finish]).actions ∧
    (run cfgLocal [Event.filePart "photo.png" "image/png" (UploadOutcome.err fileSizeError),
        Event.fileLimit, Event.finish]).responses
      = [{ status := 500, body := RespBody.errBody fileSizeError }] := by decide

/-- Claim C3 (what the code actually computes): with the spec's configuration
`baseURL = "http://x/files"` (no trailing slash), the access path resolves the
key against the raw `baseURL` — the normalized copy computed on lines 129-132
is never used — so WHATWG resolution drops the `files` segment and the
descriptor is `http://x/pad1/u.png`, not the spec's
`http://x/files/pad1/u.png`. -/
theorem local_access_path_drops_last_base_segment :
    (run cfgLocal [Event.filePart "photo.png" "image/png" (UploadOutcome.ok "stored")]).accessPath
      = "http://x/pad1/u.png" ∧
    specLocalUrl "http://x/files" "pad1" "u" (extname "photo.png")
      = "http://x/files/pad1/u.png" ∧
    (run cfgLocal [Event.filePart "photo.png" "image/png" (UploadOutcome.ok "stored")]).accessPath
      ≠ specLocalUrl "http://x/files" "pad1" "u" (extname "photo.png") := by decide

/-- Counterexample to C4 as stated: on a size-limit violation the error is
reported first — `busboy.emit('error', ...)` synchronously runs `done`, which
logs it — and `imageUpload.deletePartials()` is invoked only afterwards, so
the deletion does not happen before the error is reported. -/
theorem limit_reports_before_deleting :
    (run cfgLocal [Event.filePart "photo.png" "image/png" (UploadOutcome.ok "stored"),
        Event.fileLimit]).actions
      = [Action.uploadCall "/tmp/up/pad1/u.png" "image/png",
         Action.logError fileSizeError, Action.deletePartials] ∧
    ¬ (List.indexOf Action.deletePartials
        (run cfgLocal [Event.filePart "photo.png" "image/png" (UploadOutcome.ok "stored"),
          Event.fileLimit]).actions
       < List.indexOf (Action.logError fileSizeError)
        (run cfgLocal [Event.filePart "photo.png" "image/png" (UploadOutcome.ok "stored"),
          Event.fileLimit]).actions) := by decide

/-- Claim C4 as amended: whenever a mid-stream size-limit violation fires,
`deletePartials` is invoked — immediately after the error is emitted and
logged (not before) — so no partial object is left behind. -/
theorem limit_always_deletes_partials (st : SessionState) :
    (stepLimit st).actions =
      st.actions ++ [Action.logError fileSizeError, Action.deletePartials] ∧
    Action.deletePartials ∈ (stepLimit st).actions := by
  refine ⟨stepLimit_actions st, ?_⟩
  rw [stepLimit_actions st]
  simp

/-- Claim C5 (what the code actually does): on success the finish handler
writes 201 with the descriptor as JSON body, but on failure no response with
the outcome's `statusCode` is ever written: a busboy-level error (even one
carrying `statusCode 403`) produces no response at all — `done` returns after
logging, before its `res.status(error.statusCode || 500)` line — and a
rejected upload promise is answered with an unconditional 500. -/
theorem error_event_never_writes_response :
    (run cfgLocal [Event.busboyError fileSizeError]).responses = [] ∧
    (run cfgLocal [Event.busboyError fileSizeError, Event.finish]).responses = [] ∧
    (run cfgLocal [Event.filePart "photo.png" "image/png" (UploadOutcome.ok "stored"),
        Event.finish]).responses
      = [{ status := 201, body := RespBody.descriptor "http://x/pad1/u.png" }] ∧
    (run cfgLocal [Event.filePart "photo.png" "image/png" (UploadOutcome.err fileSizeError),
        Event.finish]).responses
      = [{ status := 500, body := RespBody.errBody fileSizeError }] := by decide

/-- Claim C6 (what the code actually does): the `req.unpipe(busboy)` and
`drainStream(req)` calls sit after the early `return` in `done`, so no event
trace whatsoever ever unpipes or drains the request — after an early failure
the remaining body is never drained. -/
theorem failure_never_unpipes_or_drains (cfg : SessionConfig) (events : List Event) :
    Action.unpipe ∉ (run cfg events).actions ∧
      Action.drain ∉ (run cfg events).actions := by
  unfold run
  exact foldl_no_unpipe_drain cfg events initialState
    (by simp [initialState]) (by simp [initialState])

/-- Counterexample to C7 as stated: the generated identifier is drawn once
per request (line 123, outside the `file` handler), not once per file — two
distinct file parts in the same request are stored under the identical key. -/
theorem same_request_shares_generated_id :
    (run cfgS3 [Event.filePart "a.png" "image/png" (UploadOutcome.ok "d1"),
        Event.filePart "b.png" "image/png" (UploadOutcome.ok "d2")]).actions
      = [Action.uploadCall "pad1/u.png" "image/png",
         Action.uploadCall "pad1/u.png" "image/png"] ∧
    ("a.png" : String) ≠ "b.png" := by decide

/-- Claim C7 as amended: for every file part, in both storage variants, the
storage key is `<padId>/<id><originalExtension>` where `<id>` is the random
identifier drawn once per request (so it is shared by all file parts of that
request) and is independent of the original filename, which contributes only
its extension. In the non-local variant that key is passed to the backend
as is; in the local variant the very same key is resolved under the
configured `baseFolder`. The two cases together cover every configuration. -/
theorem upload_key_uses_request_id (cfg : SessionConfig) (st : SessionState)
    (fn mt : String) (r : UploadOutcome) :
    (storageIsLocal cfg = false →
      (stepFile cfg fn mt r st).actions =
        st.actions ++
          [Action.uploadCall (cfg.padId ++ "/" ++ (cfg.reqId ++ extname fn)) mt]) ∧
    (∀ s, cfg.storage = some s → s.type = "local" →
      (stepFile cfg fn mt r st).actions =
        st.actions ++
          [Action.uploadCall
            (s.baseFolder ++ "/" ++ (cfg.padId ++ "/" ++ (cfg.reqId ++ extname fn)))
            mt]) := by
  constructor
  · intro h
    cases hs : cfg.storage with
    | none => simp [stepFile, hs, savedKey, pathJoin]
    | some s =>
      have hl : (s.type == "local") = false := by
        unfold storageIsLocal at h
        rw [hs] at h
        exact h
      simp [stepFile, hs, hl, savedKey, pathJoin]
  · intro s hs hl
    simp [stepFile, hs, hl, savedKey, pathJoin]

/-- Witness for C7's amended claim at a concrete non-local configuration and
at the concrete local configuration of the spec's scenarios. -/
theorem upload_key_uses_request_id_witness :
    (stepFile cfgS3 "a.png" "image/png" (UploadOutcome.ok "d1") initialState).actions =
      [Action.uploadCall ("pad1" ++ "/" ++ ("u" ++ extname "a.png")) "image/png"] ∧
    (stepFile cfgLocal "a.png" "image/png" (UploadOutcome.ok "d1") initialState).actions =
      [Action.uploadCall
        ("/tmp/up" ++ "/" ++ ("pad1" ++ "/" ++ ("u" ++ extname "a.png"))) "image/png"] := by
  constructor
  · rw [(upload_key_uses_request_id cfgS3 initialState "a.png" "image/png"
      (UploadOutcome.ok "d1")).1 (by decide)]
    rfl
  · rw [(upload_key_uses_request_id cfgLocal initialState "a.png" "image/png"
      (UploadOutcome.ok "d1")).2 _ rfl rfl]
    rfl

/-- Claim C8: the clientVars hook never exposes the `storage` object itself;
every other `ep_image_upload` key is exposed; the recognized mimetype table is
added under `mimeTypes`; and the hook's output depends on `storage` only
through its truthiness and its `type` string — two settings objects that
differ only in other `storage` fields (credentials, buckets, folders) produce
identical client variables. -/
theorem clientVars_sanitizes_storage (m : Value) (ep₁ ep₂ : List (String × Value))
    (hagree : List.Forall₂ agreeOffStorage ep₁ ep₂)
    (hsig : storageSig ep₁ = storageSig ep₂) :
    lookupKey (clientVars m ep₁) "storage" = none ∧
    (∀ k, k ∈ ep₁.map Prod.fst → k ≠ "storage" →
      k ∈ (clientVars m ep₁).map Prod.fst) ∧
    lookupKey (clientVars m ep₁) "mimeTypes" = some m ∧
    clientVars m ep₁ = clientVars m ep₂ := by
  refine ⟨?_, ?_, ?_, ?_⟩
  · unfold clientVars
    rw [lookupKey_objSet, if_neg (by decide),
      lookupKey_applyStorageType_ne _ _ _ (by decide),
      lookupKey_copyKeys_storage]
    rfl
  · intro k hk hkne
    unfold clientVars
    exact mem_keys_objSet_of_mem _ _ _ k
      (mem_keys_applyStorageType_of_mem _ _ k
        (mem_keys_copyKeys ep₁ _ k hk hkne))
  · unfold clientVars
    rw [lookupKey_objSet, if_pos rfl]
  · unfold clientVars
    rw [copyKeys_congr ep₁ ep₂ hagree,
      applyStorageType_congr (lookupKey ep₁ "storage") (lookupKey ep₂ "storage") hsig]

/-- Witness for C8: two concrete settings objects differing only in an S3
credential yield identical client variables, with `storage` absent. -/
theorem clientVars_sanitizes_storage_witness :
    lookupKey (clientVars mimeDbV epSettingsA) "storage" = none ∧
    clientVars mimeDbV epSettingsA = clientVars mimeDbV epSettingsB := by
  have h := clientVars_sanitizes_storage mimeDbV epSettingsA epSettingsB
    (List.Forall₂.cons ⟨rfl, fun _ => rfl⟩
      (List.Forall₂.cons ⟨rfl, fun hc => absurd rfl hc⟩ List.Forall₂.nil))
    rfl
  exact ⟨h.1, h.2.2.2⟩

/-- Claim C9: when `settings.ep_image_upload.storage` is undefined, the POST
handler throws a TypeError while reading `storage.baseFolder` during the
`StreamUpload` construction, before the `storageConfig` truthiness guard is
reached — so the guard never prevents the error and the handler produces no
response. -/
theorem missing_storage_throws_before_guard (s : EpUploadSettings)
    (padId reqId : String) (events : List Event) (h : s.storage = none) :
    handlerRun s padId reqId events = Except.error typeErrorMsg := by
  unfold handlerRun postHandlerInit readBaseFolder
  rw [h]
  rfl

/-- Witness for C9 at a concrete settings object with no `storage` entry. -/
theorem missing_storage_throws_before_guard_witness :
    handlerRun { storage := none } "pad1" "u" [Event.finish]
      = Except.error typeErrorMsg :=
  missing_storage_throws_before_guard { storage := none } "pad1" "u"
    [Event.finish] rfl

/-- Claim C10: when the multipart body contains no file part, `uploadResult`
is never set, so the `finish` handler takes its `if (uploadResult)` branch
vacuously and writes no HTTP response at all — the request goes unanswered. -/
theorem no_file_part_no_response (cfg : SessionConfig) (events : List Event)
    (h : ∀ e ∈ events, isFilePart e = false) :
    (run cfg events).responses = [] := by
  unfold run
  rw [foldl_no_file_responses cfg events initialState h rfl]
  rfl

/-- Witness for C10: a session that only sees `finish` writes no response. -/
theorem no_file_part_no_response_witness :
    (run cfgLocal [Event.finish]).responses = [] :=
  no_file_part_no_response cfgLocal [Event.finish] (by decide)

end EpImageUpload
